import Mathlib

/-!
# Verification of the img.ly SDK image pipeline

A shallow embedding of the `imgly-sdk-html5` image-transformation pipeline:

* the `NightUI` operation initialization (`src/js/ui/night/ui.js`):
  the fixed preferred operation order, the selection-driven construction of
  the `OperationsStack`, and the `update` event handler with its `paused`
  suppression;
* the `OrchidFilter` and `FixieFilter` definitions (filters built from a
  `PrimitivesStack` of tone-curve and desaturation primitives).

The `Filter` / `PrimitivesStack` / `Primitive` runtime classes themselves are
not part of the sources; where their behaviour is needed it is modelled from
the specification (Catmull-Rom tone-curve interpolation over a 256-entry
lookup table, desaturation as a luma lerp, front-to-back stack execution).
-/

/-! ## Pixels and images -/

/-- One 8-bit RGB pixel; channel values live in `0..255`. -/
structure Pixel where
  r : ℕ
  g : ℕ
  b : ℕ
deriving DecidableEq, Repr

/-- An image is its pixel data, row-major. -/
abbrev Image := List Pixel

/-! ## Tone curve interpolation

Modelled from the spec: the `ToneCurve` primitive (not among the given source
files) precomputes, per channel, a 256-entry lookup table by smooth
Catmull-Rom spline interpolation through the control points, clamping the
result to `[0, 255]`.  All arithmetic is carried out on scaled integers: the
spline value at parameter `t = n / d` is the fraction
`crNum p0 p1 p2 p3 n d / (2 * d ^ 3)`. -/

/-- Modelled from the spec: numerator of the Catmull-Rom spline value at
parameter `t = n / d` through neighbour values `p0 p1 p2 p3`; the full value
is this over `2 * d ^ 3`. -/
def crNum (p0 p1 p2 p3 n d : ℤ) : ℤ :=
  2 * p1 * (d * d * d) + (p2 - p0) * n * (d * d)
    + (2 * p0 - 5 * p1 + 4 * p2 - p3) * (n * n) * d
    + (3 * p1 - p0 - 3 * p2 + p3) * (n * n * n)

/-- Modelled from the spec: round the fraction `num / den` (with `den > 0`) to
the nearest integer and clamp into the 8-bit range `[0, 255]`. -/
def roundClamp (num den : ℤ) : ℕ :=
  (max 0 (min 255 (Int.fdiv (2 * num + den) (2 * den)))).toNat

/-- Modelled from the spec: walk the control points to the segment containing
input level `x` and evaluate the Catmull-Rom spline there.  `pPrev` is the
control point before `pA` (duplicated at the start), `pA` the left end of the
current candidate segment. -/
def toneCurveSeg (pPrev pA : ℕ × ℕ) : List (ℕ × ℕ) → ℕ → ℕ
  | [], _x => pA.2
  | pB :: rest, x =>
    if x < pB.1 then
      let d : ℤ := (pB.1 : ℤ) - (pA.1 : ℤ)
      roundClamp
        (crNum pPrev.2 pA.2 pB.2 (rest.headD pB).2 ((x : ℤ) - (pA.1 : ℤ)) d)
        (2 * (d * d * d))
    else toneCurveSeg pA pB rest x

/-- Modelled from the spec: the interpolated 8-bit output level of a tone
curve at 8-bit input level `x`.  Inputs below the first control point map to
its output; inputs at or past the last control point map to its output. -/
def toneCurveMap (pts : List (ℕ × ℕ)) (x : ℕ) : ℕ :=
  match pts with
  | [] => x
  | p :: rest => if x < p.1 then p.2 else toneCurveSeg p p rest x

/-- Modelled from the spec: the precomputed 256-entry lookup table of a tone
curve channel. -/
def toneCurveLUT (pts : List (ℕ × ℕ)) : List ℕ :=
  (List.range 256).map (toneCurveMap pts)

/-- Modelled from the spec: look an input level up in the precomputed table. -/
def lutAt (pts : List (ℕ × ℕ)) (x : ℕ) : ℕ :=
  (toneCurveLUT pts).getD x 0

/-- Modelled from the spec: control points are malformed when a channel has
fewer than 2 points or input levels that fail to increase strictly. -/
def strictlyAscending : List (ℕ × ℕ) → Bool
  | [] => true
  | [_] => true
  | a :: b :: rest => decide (a.1 < b.1) && strictlyAscending (b :: rest)

/-- All input and output levels of the control points fit in 8 bits. -/
def inRange255 (pts : List (ℕ × ℕ)) : Bool :=
  pts.all fun p => decide (p.1 ≤ 255) && decide (p.2 ≤ 255)

/-- Modelled from the spec: the configuration check reported synchronously at
`ToneCurve` primitive construction — an error for fewer than 2 control points
or non-increasing input levels. -/
def ToneCurve.checkControlPoints (pts : List (ℕ × ℕ)) : Except String Unit :=
  if decide (2 ≤ pts.length) && strictlyAscending pts then Except.ok ()
  else Except.error "malformed tone curve control points"

/-! ## Primitives and the primitives stack -/

/-- The primitive kinds used by the orchid and fixie filters: a tone curve
given per-channel `rgbControlPoints`, a tone curve given a single greyscale
`controlPoints` list, and a desaturation of a given intensity. -/
inductive Primitive where
  | ToneCurveRGB (red green blue : List (ℕ × ℕ))
  | ToneCurveSingle (controlPoints : List (ℕ × ℕ))
  | Desaturation (desaturation : ℚ)
deriving DecidableEq

/-- Modelled from the spec: remap each channel of a pixel through its
channel's tone-curve lookup table. -/
def applyToneCurvePixel (red green blue : List (ℕ × ℕ)) (p : Pixel) : Pixel :=
  ⟨lutAt red p.r, lutAt green p.g, lutAt blue p.b⟩

/-- Modelled from the spec: fixed luma weighting used for desaturation. -/
def luma (p : Pixel) : ℚ :=
  (299 * p.r + 587 * p.g + 114 * p.b) / 1000

/-- Modelled from the spec: round a rational channel value to the nearest
integer and clamp into the 8-bit range. -/
def clampRoundQ (q : ℚ) : ℕ :=
  (max 0 (min 255 ⌊q + 1 / 2⌋)).toNat

/-- Modelled from the spec: desaturation lerps each pixel toward its
grayscale value, `out = lerp(original, grayscale, intensity)`. -/
def applyDesaturationPixel (d : ℚ) (p : Pixel) : Pixel :=
  let g := luma p
  ⟨clampRoundQ ((1 - d) * p.r + d * g),
   clampRoundQ ((1 - d) * p.g + d * g),
   clampRoundQ ((1 - d) * p.b + d * g)⟩

/-- Modelled from the spec: one primitive is one full-image pass.  A single
greyscale tone curve applies the same lookup to all three channels. -/
def applyPrimitive : Primitive → Image → Image
  | .ToneCurveRGB red green blue, img => img.map (applyToneCurvePixel red green blue)
  | .ToneCurveSingle pts, img => img.map (applyToneCurvePixel pts pts pts)
  | .Desaturation d, img => img.map (applyDesaturationPixel d)

/-- A `PrimitivesStack` is its ordered list of primitives. -/
abbrev PrimitivesStack := List Primitive

/-- `add` appends a primitive at the back of the stack. -/
def PrimitivesStack.add (stack : PrimitivesStack) (p : Primitive) : PrimitivesStack :=
  stack ++ [p]

/-- Modelled from the spec: stack execution applies each primitive in
insertion order, each consuming the previous pass's output. -/
def stackApply (stack : PrimitivesStack) (img : Image) : Image :=
  stack.foldl (fun im p => applyPrimitive p im) img

/-- A renderer holds the pixel output being transformed plus whatever backend
state (`α`) the rendering backend carries alongside it. -/
structure Renderer (α : Type) where
  output : Image
  backend : α

/-- The JavaScript value a call evaluates to: `undefined` for a bare return,
or the promise produced by `PrimitivesStack.render`. -/
inductive JsReturn where
  | undefined
  | promise
deriving DecidableEq

/-- Modelled from the spec: `stack.render(renderer)` writes the composed
passes to the renderer's output and evaluates to a promise. -/
def PrimitivesStack.render {α : Type} (stack : PrimitivesStack) (r : Renderer α) :
    Renderer α × JsReturn :=
  ({ r with output := stackApply stack r.output }, JsReturn.promise)

/-! ## The orchid and fixie filters (from the source) -/

/-- Red control points of orchid's first (RGB) tone-curve primitive. -/
def orchidRed : List (ℕ × ℕ) := [(0, 0), (115, 130), (195, 215), (255, 255)]

/-- Green control points of orchid's first (RGB) tone-curve primitive. -/
def orchidGreen : List (ℕ × ℕ) := [(0, 0), (148, 153), (172, 215), (255, 255)]

/-- Blue control points of orchid's first (RGB) tone-curve primitive. -/
def orchidBlue : List (ℕ × ℕ) := [(0, 46), (58, 75), (178, 205), (255, 255)]

/-- Control points of orchid's second (single greyscale) tone-curve
primitive. -/
def orchidGray : List (ℕ × ℕ) := [(0, 0), (117, 151), (189, 217), (255, 255)]

/-- Red control points of fixie's tone-curve primitive. -/
def fixieRed : List (ℕ × ℕ) :=
  [(0, 0), (44, 28), (63, 48), (128, 132), (235, 248), (255, 255)]

/-- Green control points of fixie's tone-curve primitive. -/
def fixieGreen : List (ℕ × ℕ) :=
  [(0, 0), (20, 10), (60, 45), (190, 209), (211, 231), (255, 255)]

/-- Blue control points of fixie's tone-curve primitive. -/
def fixieBlue : List (ℕ × ℕ) :=
  [(0, 31), (41, 62), (150, 142), (234, 212), (255, 224)]

/-- The stack `OrchidFilter.prototype.render` builds: a fresh stack, then
three `add` calls — the RGB tone curve, the greyscale tone curve, and the
desaturation of intensity 0.65. -/
def orchidStack : PrimitivesStack :=
  PrimitivesStack.add
    (PrimitivesStack.add
      (PrimitivesStack.add []
        (Primitive.ToneCurveRGB orchidRed orchidGreen orchidBlue))
      (Primitive.ToneCurveSingle orchidGray))
    (Primitive.Desaturation 0.65)

/-- The stack `FixieFilter.prototype.render` builds: a fresh stack and one
`add` call with the RGB tone curve. -/
def fixieStack : PrimitivesStack :=
  PrimitivesStack.add []
    (Primitive.ToneCurveRGB fixieRed fixieGreen fixieBlue)

/-- `OrchidFilter.prototype.render(renderer)`: builds `orchidStack`, runs
`stack.render(renderer)`, discards its value, and falls off the end of the
function body — so the call evaluates to `undefined`. -/
def OrchidFilter.render {α : Type} (r : Renderer α) : Renderer α × JsReturn :=
  ((PrimitivesStack.render orchidStack r).1, JsReturn.undefined)

/-- `FixieFilter.prototype.render(renderer)`: builds `fixieStack`, runs
`stack.render(renderer)`, discards its value, and falls off the end of the
function body — so the call evaluates to `undefined`. -/
def FixieFilter.render {α : Type} (r : Renderer α) : Renderer α × JsReturn :=
  ((PrimitivesStack.render fixieStack r).1, JsReturn.undefined)

/-! ## NightUI operation initialization (from the source) -/

/-- The fixed preferred operation order of the `Night` UI: geometry first,
then color (filters before fine-tuning), then post-processing. -/
def NightUI.preferredOperationOrder : List String :=
  ["crop-rotation", "flip",
   "filters", "contrast", "brightness", "saturation",
   "radial-blur", "tilt-shift", "frames", "stickers", "text"]

/-- Modelled from the spec: `isOperationSelected` (inherited from the base
`UI` class, not among the given source files) asks whether an identifier is
in the caller's active-operation set, here given as the list of identifiers
in the order the user activated them. -/
def isOperationSelected (activated : List String) (id : String) : Bool :=
  decide (id ∈ activated)

/-- The loop body of `NightUI._initOperations`, threading the operations
stack: unselected identifiers are skipped; a selected identifier with a
registered constructor is instantiated and pushed; a selected identifier
with no registered constructor aborts the pass with a lookup error
(`new undefined(...)` throws), leaving the stack as already pushed. -/
def initOpsGo (sel reg : String → Bool) : List String → List String → List String × Option String
  | [], stack => (stack, none)
  | id :: rest, stack =>
    if sel id then
      if reg id then initOpsGo sel reg rest (stack ++ [id])
      else (stack, some id)
    else initOpsGo sel reg rest stack

/-- `NightUI._initOperations`: iterate the fixed preferred operation order
over the initially empty operations stack.  The first component is the stack
contents (operation identifiers, one fresh instance each) when the pass
finishes or aborts; the second is the identifier whose constructor lookup
failed, when one did. -/
def NightUI.initOperations (sel reg : String → Bool) : List String × Option String :=
  initOpsGo sel reg NightUI.preferredOperationOrder []

/-- The priority group of an operation identifier: geometry operations are
group 0, color operations group 1, post-processing group 2. -/
def opGroup (id : String) : ℕ :=
  if id = "crop-rotation" ∨ id = "flip" then 0
  else if id = "filters" ∨ id = "contrast" ∨ id = "brightness" ∨ id = "saturation" then 1
  else 2

/-! ## Operation state and the `update` event handler (from the source) -/

/-- The per-operation state the Night UI tracks: the `isIdentity` flag and
the operation's (abstract) parameter value. -/
structure OpState where
  isIdentity : Bool
  params : ℕ
deriving DecidableEq, Repr

/-- A fresh operation instance exactly as `_initOperations` builds it:
`operationInstance.isIdentity = true` immediately after construction. -/
def NightUI.newOperation : OpState :=
  { isIdentity := true, params := 0 }

/-- An editing session as the Night UI sees it: the `paused` flag, the
operations map, a count of re-renders triggered so far, and — modelled from
the spec — whether a parameter change happened while paused. -/
structure Session where
  paused : Bool
  ops : List (String × OpState)
  renderCount : ℕ
  pendingChange : Bool
deriving DecidableEq, Repr

/-- Apply `f` to the operation stored under `id`, leaving other entries
untouched. -/
def modOp (id : String) (f : OpState → OpState) :
    List (String × OpState) → List (String × OpState) :=
  List.map fun e => if e.1 = id then (e.1, f e.2) else e

/-- An operation's `update` event for a new parameter value.  The parameter
write itself always lands (pausing defers notification, not writes); the
handler from `_initOperations` then checks `this._paused`: when paused it
returns at once (the spec-modelled pending-change flag records that a change
occurred), otherwise it clears `isIdentity` and triggers a re-render. -/
def Session.update (s : Session) (id : String) (p : ℕ) : Session :=
  let s' := { s with ops := modOp id (fun v => { v with params := p }) s.ops }
  if s'.paused then
    { s' with pendingChange := true }
  else
    { s' with ops := modOp id (fun v => { v with isIdentity := false }) s'.ops,
              renderCount := s'.renderCount + 1 }

/-- Modelled from the spec: pausing sets the suppression flag. -/
def Session.pauseSession (s : Session) : Session :=
  { s with paused := true }

/-- Modelled from the spec: unpausing clears the flag and triggers exactly
one consolidated re-render when at least one change occurred while paused. -/
def Session.resume (s : Session) : Session :=
  if s.pendingChange then
    { s with paused := false, pendingChange := false, renderCount := s.renderCount + 1 }
  else
    { s with paused := false }

/-- Deliver a sequence of `update` events, in order. -/
def Session.runUpdates (s : Session) (evs : List (String × ℕ)) : Session :=
  evs.foldl (fun t e => t.update e.1 e.2) s

/-- The `isIdentity` flag of the operation stored under `id`, when present. -/
def Session.identityOf (s : Session) (id : String) : Option Bool :=
  (s.ops.lookup id).map OpState.isIdentity

/-! ## Concrete sessions, registries and renderers used as witnesses -/

/-- Selection used in the unknown-identifier counterexample: the caller
activated crop-rotation and filters. -/
def cexSelected : String → Bool :=
  isOperationSelected ["crop-rotation", "filters"]

/-- Registry used in the unknown-identifier counterexample: only the
crop-rotation constructor is registered. -/
def cexRegistered : String → Bool :=
  fun id => id == "crop-rotation"

/-- A paused session holding one freshly constructed brightness operation. -/
def cexPausedSession : Session :=
  { paused := true,
    ops := [("brightness", NightUI.newOperation)],
    renderCount := 0,
    pendingChange := false }

/-- One activation order for the order-invariance witness. -/
def wActivatedA : List String := ["saturation", "crop-rotation", "filters"]

/-- The same active set as `wActivatedA`, activated in another order. -/
def wActivatedB : List String := ["filters", "crop-rotation", "saturation"]

/-- A registry in which every operation constructor is registered. -/
def wFullRegistry : String → Bool := fun _ => true

/-- A paused session holding five freshly constructed operations. -/
def wBatchSession : Session :=
  { paused := true,
    ops := [("crop-rotation", NightUI.newOperation),
            ("flip", NightUI.newOperation),
            ("brightness", NightUI.newOperation),
            ("contrast", NightUI.newOperation),
            ("saturation", NightUI.newOperation)],
    renderCount := 0,
    pendingChange := false }

/-- Five parameter changes, one to each operation of `wBatchSession`. -/
def wBatchUpdates : List (String × ℕ) :=
  [("crop-rotation", 90), ("flip", 1), ("brightness", 2), ("contrast", 3), ("saturation", 4)]

/-- An unpaused session holding one freshly constructed brightness
operation. -/
def wLiveSession : Session :=
  { paused := false,
    ops := [("brightness", NightUI.newOperation)],
    renderCount := 0,
    pendingChange := false }

/-- A renderer over a numeric backend with a one-pixel output. -/
def wRendererA : Renderer ℕ :=
  { output := [⟨10, 20, 30⟩], backend := 7 }

/-- A renderer over a boolean backend with the same one-pixel output. -/
def wRendererB : Renderer Bool :=
  { output := [⟨10, 20, 30⟩], backend := true }

/-! ## Helper lemmas -/

/-- Characterization of the `_initOperations` loop: the pass pushes the
selected identifiers up to the first selected-but-unregistered one, where it
aborts reporting that identifier. -/
theorem initOpsGo_eq (sel reg : String → Bool) (l acc : List String) :
    initOpsGo sel reg l acc =
      (acc ++ (l.takeWhile fun id => !(sel id && !reg id)).filter sel,
       l.find? fun id => sel id && !reg id) := by
  induction l generalizing acc with
  | nil => simp [initOpsGo]
  | cons id rest ih =>
    by_cases hs : sel id <;> by_cases hr : reg id <;>
      simp [initOpsGo, hs, hr, List.takeWhile_cons, List.find?_cons, ih, List.filter_cons]

/-- When every selected identifier has a registered constructor, the pass
completes without error and the stack is the fixed order filtered by
selection. -/
theorem initOperations_all_registered (sel reg : String → Bool)
    (hreg : ∀ id, sel id = true → reg id = true) :
    NightUI.initOperations sel reg =
      (NightUI.preferredOperationOrder.filter sel, none) := by
  have hcond : ∀ id, (sel id && !reg id) = false := by
    intro id
    by_cases hs : sel id
    · simp [hs, hreg id hs]
    · simp [hs]
  have hcond' : ∀ id, (!(sel id && !reg id)) = true := fun id => by simp [hcond id]
  rw [NightUI.initOperations, initOpsGo_eq]
  rw [List.takeWhile_eq_self_iff.mpr fun x _ => hcond' x]
  rw [List.find?_eq_none.mpr fun x _ => by simp [hcond x]]
  simp

/-- The fixed preferred operation order is group-monotone: geometry, then
color, then post-processing. -/
theorem pref_pairwise :
    NightUI.preferredOperationOrder.Pairwise (fun a b => opGroup a ≤ opGroup b) := by
  decide

/-- The fixed preferred operation order lists each identifier once. -/
theorem pref_nodup : NightUI.preferredOperationOrder.Nodup := by decide

/-- One `update` event on a paused session keeps it paused, triggers no
re-render, and leaves the pending-change flag set. -/
theorem update_paused_step (s : Session) (id : String) (p : ℕ) (hp : s.paused = true) :
    (s.update id p).paused = true ∧ (s.update id p).renderCount = s.renderCount ∧
    (s.update id p).pendingChange = true := by
  simp [Session.update, hp]

/-- Delivering a batch of `update` events to a paused session triggers no
re-render and records whether any change occurred. -/
theorem runUpdates_paused (evs : List (String × ℕ)) (s : Session) (hp : s.paused = true) :
    (s.runUpdates evs).paused = true ∧
    (s.runUpdates evs).renderCount = s.renderCount ∧
    (s.runUpdates evs).pendingChange = (s.pendingChange || !evs.isEmpty) := by
  induction evs generalizing s with
  | nil => simp [Session.runUpdates, hp]
  | cons e rest ih =>
    have hstep := update_paused_step s e.1 e.2 hp
    have hrw : s.runUpdates (e :: rest) = (s.update e.1 e.2).runUpdates rest := rfl
    rw [hrw]
    obtain ⟨h1, h2, h3⟩ := ih (s.update e.1 e.2) hstep.1
    refine ⟨h1, by rw [h2, hstep.2.1], ?_⟩
    rw [h3, hstep.2.2]
    simp

/-- Looking up the modified identifier after `modOp` returns the modified
entry. -/
theorem lookup_modOp (id : String) (f : OpState → OpState) (ops : List (String × OpState)) :
    (modOp id f ops).lookup id = (ops.lookup id).map f := by
  induction ops with
  | nil => simp [modOp]
  | cons e rest ih =>
    obtain ⟨k, v⟩ := e
    by_cases h : k = id
    · subst h
      simp only [modOp, List.map_cons, if_pos rfl]
      simp [List.lookup]
    · have hne : (id == k) = false := by
        simp [Ne.symm h]
      simp only [modOp, List.map_cons, if_neg h]
      simp [List.lookup, hne]
      exact ih

/-- The stack built by `_initOperations` and the error it reports, for any
selection and registry: the stack is the selected-and-still-reachable prefix
of the fixed order, the error is the first selected identifier without a
registered constructor. -/
theorem initOperations_run_eq (sel reg : String → Bool) :
    (NightUI.initOperations sel reg).2 =
      NightUI.preferredOperationOrder.find? (fun id => sel id && !reg id) ∧
    (NightUI.initOperations sel reg).1 =
      (NightUI.preferredOperationOrder.takeWhile fun id => !(sel id && !reg id)).filter sel := by
  rw [NightUI.initOperations, initOpsGo_eq]
  simp

/-! ## Claim theorems -/

/-- C1: for every set of active operation identifiers and every order in
which the user activates them (two activation lists that are permutations of
one another), the operations stack built by `_initOperations` is the same,
is the fixed preferred order restricted to the active set, and is
group-monotone: geometry operations precede color operations precede
post-processing operations. -/
theorem operationsStack_order_invariant (act₁ act₂ : List String) (reg : String → Bool)
    (hperm : act₁.Perm act₂) (hreg : ∀ s, s ∈ act₁ → reg s = true) :
    (NightUI.initOperations (isOperationSelected act₁) reg).1 =
      (NightUI.initOperations (isOperationSelected act₂) reg).1 ∧
    List.Sublist (NightUI.initOperations (isOperationSelected act₁) reg).1
      NightUI.preferredOperationOrder ∧
    (∀ s, s ∈ (NightUI.initOperations (isOperationSelected act₁) reg).1 ↔
        s ∈ NightUI.preferredOperationOrder ∧ s ∈ act₁) ∧
    (NightUI.initOperations (isOperationSelected act₁) reg).1.Pairwise
      (fun a b => opGroup a ≤ opGroup b) := by
  have hreg₁ : ∀ id, isOperationSelected act₁ id = true → reg id = true := by
    intro id h
    exact hreg id (by simpa [isOperationSelected] using h)
  have hreg₂ : ∀ id, isOperationSelected act₂ id = true → reg id = true := by
    intro id h
    exact hreg id (hperm.mem_iff.mpr (by simpa [isOperationSelected] using h))
  have h1 := initOperations_all_registered (isOperationSelected act₁) reg hreg₁
  have h2 := initOperations_all_registered (isOperationSelected act₂) reg hreg₂
  have hfil : NightUI.preferredOperationOrder.filter (isOperationSelected act₁) =
      NightUI.preferredOperationOrder.filter (isOperationSelected act₂) := by
    apply List.filter_congr
    intro a _
    simp [isOperationSelected, hperm.mem_iff]
  refine ⟨by rw [h1, h2, hfil], ?_, ?_, ?_⟩
  · rw [h1]
    exact List.filter_sublist _
  · intro s
    rw [h1]
    simp [List.mem_filter, isOperationSelected]
  · rw [h1]
    exact pref_pairwise.sublist (List.filter_sublist _)

/-- Witness for C1 at the spec's example: activating saturation,
crop-rotation then filters and activating filters, crop-rotation then
saturation build the same stack. -/
theorem operationsStack_order_invariant_witness :
    wActivatedA.Perm wActivatedB ∧
    ((NightUI.initOperations (isOperationSelected wActivatedA) wFullRegistry).1 =
      (NightUI.initOperations (isOperationSelected wActivatedB) wFullRegistry).1 ∧
    List.Sublist (NightUI.initOperations (isOperationSelected wActivatedA) wFullRegistry).1
      NightUI.preferredOperationOrder ∧
    (∀ s, s ∈ (NightUI.initOperations (isOperationSelected wActivatedA) wFullRegistry).1 ↔
        s ∈ NightUI.preferredOperationOrder ∧ s ∈ wActivatedA) ∧
    (NightUI.initOperations (isOperationSelected wActivatedA) wFullRegistry).1.Pairwise
      (fun a b => opGroup a ≤ opGroup b)) :=
  ⟨by decide,
   operationsStack_order_invariant wActivatedA wActivatedB wFullRegistry
     (by decide) (fun s _ => rfl)⟩

/-- C2 counterexample: with crop-rotation and filters active but only the
crop-rotation constructor registered, `_initOperations` raises the lookup
error for filters, yet the crop-rotation operation pushed earlier in the
same pass remains on the stack — the stack is not left unmodified. -/
theorem unknown_identifier_partial_insertion_cex :
    (NightUI.initOperations cexSelected cexRegistered).2 = some "filters" ∧
    (NightUI.initOperations cexSelected cexRegistered).1 = ["crop-rotation"] ∧
    ((["crop-rotation"] : List String) ≠ []) := by
  decide

/-- C2 as amended: a selected identifier with no registered constructor
aborts initialization with a lookup error naming the first such identifier
in priority order, and identifiers merely absent from the active set are
skipped without error; but operations instantiated earlier in the same pass
remain pushed — the stack holds exactly the selected-and-registered prefix
preceding the failing identifier. -/
theorem initOperations_unknown_identifier_behavior (sel reg : String → Bool) :
    (NightUI.initOperations sel reg).2 =
      NightUI.preferredOperationOrder.find? (fun id => sel id && !reg id) ∧
    (NightUI.initOperations sel reg).1 =
      (NightUI.preferredOperationOrder.takeWhile fun id => !(sel id && !reg id)).filter sel :=
  initOperations_run_eq sel reg

/-- C3: while the session is paused, a batch of `update` events triggers no
re-render, and unpausing afterwards triggers exactly one consolidated
re-render provided at least one change occurred while paused. -/
theorem paused_batch_single_rerender (s : Session) (evs : List (String × ℕ))
    (hp : s.paused = true) (hne : evs ≠ []) :
    (s.runUpdates evs).renderCount = s.renderCount ∧
    ((s.runUpdates evs).resume).renderCount = s.renderCount + 1 := by
  obtain ⟨h1, h2, h3⟩ := runUpdates_paused evs s hp
  have hpend : (s.runUpdates evs).pendingChange = true := by
    rw [h3]
    simp [hne]
  exact ⟨h2, by simp [Session.resume, hpend, h2]⟩

/-- Witness for C3 at the spec's example: pausing, mutating 5 operations,
then unpausing triggers exactly one re-render. -/
theorem paused_batch_single_rerender_witness :
    wBatchSession.paused = true ∧ wBatchUpdates ≠ [] ∧
    ((wBatchSession.runUpdates wBatchUpdates).renderCount = wBatchSession.renderCount ∧
     ((wBatchSession.runUpdates wBatchUpdates).resume).renderCount =
       wBatchSession.renderCount + 1) :=
  ⟨rfl, by decide, paused_batch_single_rerender wBatchSession wBatchUpdates rfl (by decide)⟩

/-- C4 counterexample: on a paused session, an `update` event for the
brightness operation leaves its `isIdentity` flag `true` and triggers no
re-render — the handler returns before the `isIdentity = false` assignment,
so not every update event transitions the flag and re-renders. -/
theorem update_while_paused_identity_cex :
    (cexPausedSession.update "brightness" 5).identityOf "brightness" = some true ∧
    ¬((cexPausedSession.update "brightness" 5).identityOf "brightness" = some false) ∧
    (cexPausedSession.update "brightness" 5).renderCount = cexPausedSession.renderCount := by
  decide

/-- C4 as amended: every operation is constructed with `isIdentity = true`;
an `update` event while the session is not paused transitions the flag to
`false` and triggers a re-render, while an `update` event on a paused
session leaves the flag and the render count unchanged. -/
theorem isIdentity_lifecycle (s : Session) (id : String) (p : ℕ) (b : Bool)
    (hid : s.identityOf id = some b) :
    NightUI.newOperation.isIdentity = true ∧
    (s.paused = false →
      (s.update id p).identityOf id = some false ∧
      (s.update id p).renderCount = s.renderCount + 1) ∧
    (s.paused = true →
      (s.update id p).identityOf id = some b ∧
      (s.update id p).renderCount = s.renderCount) := by
  obtain ⟨v, hv, hb⟩ := Option.map_eq_some'.mp hid
  refine ⟨rfl, ?_, ?_⟩
  · intro hnp
    constructor
    · simp [Session.update, hnp, Session.identityOf, lookup_modOp, hv]
    · simp [Session.update, hnp]
  · intro hp
    constructor
    · simp [Session.update, hp, Session.identityOf, lookup_modOp, hv, hb]
    · simp [Session.update, hp]

/-- Witness for C4 on an unpaused session holding a fresh brightness
operation. -/
theorem isIdentity_lifecycle_witness :
    wLiveSession.identityOf "brightness" = some true ∧
    (NightUI.newOperation.isIdentity = true ∧
    (wLiveSession.paused = false →
      (wLiveSession.update "brightness" 5).identityOf "brightness" = some false ∧
      (wLiveSession.update "brightness" 5).renderCount = wLiveSession.renderCount + 1) ∧
    (wLiveSession.paused = true →
      (wLiveSession.update "brightness" 5).identityOf "brightness" = some true ∧
      (wLiveSession.update "brightness" 5).renderCount = wLiveSession.renderCount)) :=
  ⟨by decide, isIdentity_lifecycle wLiveSession "brightness" 5 true (by decide)⟩

/-- C5: orchid's render builds a stack of exactly three primitives — the RGB
tone curve, then the single greyscale tone curve, then a desaturation of
intensity 0.65 — and fixie's render builds a stack of exactly one RGB tone
curve; executing each stack is the composition of one independent full-image
pass per primitive, each over the previous pass's output. -/
theorem orchid_fixie_primitive_stacks (img : Image) :
    orchidStack = [Primitive.ToneCurveRGB orchidRed orchidGreen orchidBlue,
      Primitive.ToneCurveSingle orchidGray, Primitive.Desaturation 0.65] ∧
    orchidStack.length = 3 ∧
    stackApply orchidStack img =
      applyPrimitive (Primitive.Desaturation 0.65)
        (applyPrimitive (Primitive.ToneCurveSingle orchidGray)
          (applyPrimitive (Primitive.ToneCurveRGB orchidRed orchidGreen orchidBlue) img)) ∧
    fixieStack = [Primitive.ToneCurveRGB fixieRed fixieGreen fixieBlue] ∧
    fixieStack.length = 1 ∧
    stackApply fixieStack img =
      applyPrimitive (Primitive.ToneCurveRGB fixieRed fixieGreen fixieBlue) img :=
  ⟨rfl, rfl, rfl, rfl, rfl, rfl⟩

/-- C6: fixie's red-channel lookup table has 256 entries and passes exactly
through each declared control point — in particular input level 128 maps to
exactly 132 — so the fixie tone-curve pass maps the red channel of a solid
mid-gray (128,128,128) pixel to 132. -/
theorem fixie_red_curve_passthrough :
    (toneCurveLUT fixieRed).length = 256 ∧
    lutAt fixieRed 0 = 0 ∧ lutAt fixieRed 44 = 28 ∧ lutAt fixieRed 63 = 48 ∧
    lutAt fixieRed 128 = 132 ∧ lutAt fixieRed 235 = 248 ∧ lutAt fixieRed 255 = 255 ∧
    List.map Pixel.r
      (applyPrimitive (Primitive.ToneCurveRGB fixieRed fixieGreen fixieBlue)
        [⟨128, 128, 128⟩]) = [132] := by
  refine ⟨by simp [toneCurveLUT], ?_, ?_, ?_, ?_, ?_, ?_, ?_⟩ <;> decide

/-- C7: filter rendering is deterministic and side-effect-free beyond the
renderer's output — two renderers (even over different backend types) with
the same input output produce the same rendered output under orchid and
under fixie, and neither filter changes the renderer's backend state. -/
theorem filter_render_deterministic {α β : Type} (r₁ : Renderer α) (r₂ : Renderer β)
    (h : r₁.output = r₂.output) :
    (OrchidFilter.render r₁).1.output = (OrchidFilter.render r₂).1.output ∧
    (OrchidFilter.render r₁).1.backend = r₁.backend ∧
    (FixieFilter.render r₁).1.output = (FixieFilter.render r₂).1.output ∧
    (FixieFilter.render r₁).1.backend = r₁.backend := by
  simp [OrchidFilter.render, FixieFilter.render, PrimitivesStack.render, h]

/-- Witness for C7 on two concrete renderers with equal one-pixel outputs
over different backend types. -/
theorem filter_render_deterministic_witness :
    wRendererA.output = wRendererB.output ∧
    ((OrchidFilter.render wRendererA).1.output = (OrchidFilter.render wRendererB).1.output ∧
    (OrchidFilter.render wRendererA).1.backend = wRendererA.backend ∧
    (FixieFilter.render wRendererA).1.output = (FixieFilter.render wRendererB).1.output ∧
    (FixieFilter.render wRendererA).1.backend = wRendererA.backend) :=
  ⟨rfl, filter_render_deterministic wRendererA wRendererB rfl⟩

/-- C8: every tone-curve control-point list built by the orchid and fixie
filters has at least 2 points, strictly increasing input levels, and all
levels within 0–255, so the configuration-error branch at tone-curve
construction is not taken for any of them. -/
theorem filter_control_points_valid :
    (ToneCurve.checkControlPoints orchidRed = Except.ok () ∧ inRange255 orchidRed = true) ∧
    (ToneCurve.checkControlPoints orchidGreen = Except.ok () ∧ inRange255 orchidGreen = true) ∧
    (ToneCurve.checkControlPoints orchidBlue = Except.ok () ∧ inRange255 orchidBlue = true) ∧
    (ToneCurve.checkControlPoints orchidGray = Except.ok () ∧ inRange255 orchidGray = true) ∧
    (ToneCurve.checkControlPoints fixieRed = Except.ok () ∧ inRange255 fixieRed = true) ∧
    (ToneCurve.checkControlPoints fixieGreen = Except.ok () ∧ inRange255 fixieGreen = true) ∧
    (ToneCurve.checkControlPoints fixieBlue = Except.ok () ∧ inRange255 fixieBlue = true) :=
  ⟨⟨rfl, rfl⟩, ⟨rfl, rfl⟩, ⟨rfl, rfl⟩, ⟨rfl, rfl⟩, ⟨rfl, rfl⟩, ⟨rfl, rfl⟩, ⟨rfl, rfl⟩⟩

/-- C9: after one initialization pass over the initially empty stack, the
operations stack holds at most one operation instance per identifier, for
any selection and registry. -/
theorem operations_unique_per_identifier (sel reg : String → Bool) (id : String) :
    (NightUI.initOperations sel reg).1.Nodup ∧
    (NightUI.initOperations sel reg).1.count id ≤ 1 := by
  have h := (initOperations_run_eq sel reg).2
  have hsub : List.Sublist (NightUI.initOperations sel reg).1
      NightUI.preferredOperationOrder := by
    rw [h]
    exact (List.filter_sublist _).trans (List.takeWhile_prefix _).sublist
  have hnd : (NightUI.initOperations sel reg).1.Nodup := pref_nodup.sublist hsub
  exact ⟨hnd, List.nodup_iff_count_le_one.mp hnd id⟩

/-- C10: for every renderer, `OrchidFilter.render` and `FixieFilter.render`
evaluate to `undefined` rather than the promise `stack.render` produced, so
a caller cannot observe the render result or its completion through the
return value. -/
theorem filter_render_returns_undefined {α : Type} (r : Renderer α) :
    (OrchidFilter.render r).2 = JsReturn.undefined ∧
    (FixieFilter.render r).2 = JsReturn.undefined ∧
    (PrimitivesStack.render orchidStack r).2 = JsReturn.promise ∧
    (PrimitivesStack.render fixieStack r).2 = JsReturn.promise ∧
    JsReturn.undefined ≠ JsReturn.promise :=
  ⟨rfl, rfl, rfl, rfl, by decide⟩
